import Mathlib

/-!
Shallow embedding of the Hotel-Management-System backend's two core
subsystems: the role-based admission controller (rate limiting, from
`src/index.ts`) and the in-memory activity recorder
(`src/middleware/activityLogger.ts`, `src/routes/activity-logs.ts`).

Times are wall-clock milliseconds as `Nat`; JavaScript strings are `String`;
optional / possibly-`undefined` values are `Option`; JS truthiness of strings
(`undefined` and `""` falsy) is made explicit.
-/

namespace HotelBackend

/-! ### JavaScript helpers -/

/-- JS truthiness of an optional string: `undefined` and `""` are falsy. -/
def jsTruthyStr : Option String → Bool
  | none => false
  | some s => s != ""

/-- JS `a || d` where `a` is an optional string and `d` a string default. -/
def jsOrStr (o : Option String) (d : String) : String :=
  match o with
  | none => d
  | some s => if s = "" then d else s

/-- Tests whether `needle` occurs contiguously in the character list
(JS `String.prototype.includes`). -/
def charsContain (needle : List Char) : List Char → Bool
  | [] => needle.isEmpty
  | c :: cs => needle.isPrefixOf (c :: cs) || charsContain needle cs

/-- JS `hay.includes(sub)`. -/
def strIncludes (hay sub : String) : Bool :=
  charsContain sub.toList hay.toList

/-- JS `s.startsWith(pre)`, on the underlying character list. -/
def strStartsWith (pre s : String) : Bool :=
  pre.toList.isPrefixOf s.toList

/-- JS `s.endsWith(post)`, on the underlying character list. -/
def strEndsWith (post s : String) : Bool :=
  post.toList.isSuffixOf s.toList

/-- JS `s.substring(n)` (these strings are ASCII, so code units coincide
with characters). -/
def strDropChars (s : String) (n : Nat) : String :=
  String.mk (s.toList.drop n)

/-! ### Credential decoding (`getUserRoleFromToken`, src/index.ts lines 100-113) -/

/-- Result of the `jwt.verify` library call: any failure
(missing / malformed / expired / bad signature) throws, which the source
catches; success yields a payload whose `userRole` field may be absent
(or an empty, hence falsy, string). -/
inductive TokenVerifyResult where
  | failure
  | success (userRole : Option String)
deriving DecidableEq

/-- The `jwt.verify(-, JWT_SECRET_KEY)` capability, abstracted as a function
of the token string presented to it. -/
abbrev Verifier := String → TokenVerifyResult

/-- The source strips an optional Bearer marker before verifying
(src/index.ts line 104). -/
def cleanToken (t : String) : String :=
  if strStartsWith ("Bearer ") t then strDropChars t 7 else t

/-- src/index.ts lines 100-113: decode failure degrades to anonymous and the
absent or falsy payload role defaults to user; a falsy (absent or empty)
token is anonymous outright. Total: decoding never raises to the caller. -/
def getUserRoleFromToken (verify : Verifier) (token : Option String) : String :=
  match token with
  | none => "anonymous"
  | some t =>
    if t = "" then "anonymous"
    else
      match verify (cleanToken t) with
      | TokenVerifyResult.failure => "anonymous"
      | TokenVerifyResult.success userRole => jsOrStr userRole ("user")

/-! ### The express-rate-limit window counter -/

/-- One fixed-duration counting window for one caller key. -/
structure LimiterState where
  windowStart : Nat
  count : Nat
deriving DecidableEq

/-- What a middleware stage does with a request: forward it to the next
stage, or end the response with a status code and body message. -/
inductive Outcome where
  | next
  | reject (status : Nat) (message : String)
deriving DecidableEq

/-- Modelled from the spec: the express-rate-limit library (a dependency, not
part of this repository) per the spec's RateWindow structure - `count` resets
to zero and `windowStart` advances when `now - windowStart >= windowMs`; every
request increments `count`; the request is forwarded iff `count <= maxReq`,
otherwise it is rejected with HTTP 429 carrying the limiter's message. -/
def rateLimitStep (windowMs maxReq : Nat) (message : String) (now : Nat)
    (s : LimiterState) : Outcome × LimiterState :=
  let s1 := if windowMs ≤ now - s.windowStart then LimiterState.mk now 0 else s
  let s2 := LimiterState.mk s1.windowStart (s1.count + 1)
  if s2.count ≤ maxReq then (Outcome.next, s2) else (Outcome.reject 429 message, s2)

/-- All four limiters in src/index.ts use `windowMs: 15 * 60 * 1000`. -/
def WINDOW_MS : Nat := 15 * 60 * 1000

def hotelOwnerMessage : String :=
  "Too many requests from this IP, please try again later. (Hotel Owner Rate Limit)"

def userMessage : String :=
  "Too many requests from this IP, please try again later. (User Rate Limit)"

def anonMessage : String :=
  "Too many requests from this IP, please try again later. (Anonymous Rate Limit)"

def paymentMessage : String :=
  "Too many payment requests, please try again later."

/-- src/index.ts lines 116-124: `max: 500`. -/
def hotelOwnerLimiter (now : Nat) (s : LimiterState) : Outcome × LimiterState :=
  rateLimitStep WINDOW_MS 500 hotelOwnerMessage now s

/-- src/index.ts lines 126-134: `max: 300`. -/
def userLimiter (now : Nat) (s : LimiterState) : Outcome × LimiterState :=
  rateLimitStep WINDOW_MS 300 userMessage now s

/-- src/index.ts lines 136-144: `max: 100`. -/
def anonLimiter (now : Nat) (s : LimiterState) : Outcome × LimiterState :=
  rateLimitStep WINDOW_MS 100 anonMessage now s

/-! ### The role-based admission controller -/

/-- The request data the admission middleware reads: `req.path` (as the
middleware sees it), the authorization header, and the session cookie. -/
structure Req where
  path : String
  authHeader : Option String
  sessionCookie : Option String
deriving DecidableEq

/-- src/index.ts lines 159-162: Bearer header, else the session cookie. -/
def extractToken (authHeader sessionCookie : Option String) : Option String :=
  match authHeader with
  | some h => if strStartsWith ("Bearer ") h then some (strDropChars h 7) else sessionCookie
  | none => sessionCookie

/-- The exact-match bypass test of src/index.ts lines 149-154. -/
def isBypassPath (p : String) : Bool :=
  p = "/api/health" || p = "/api/status" ||
  p = "/api/auth/validate-token" || p = "/api/auth/google-callback"

/-- The three per-role window counters (for one caller key). -/
structure RLState where
  hotelOwner : LimiterState
  user : LimiterState
  anon : LimiterState
deriving DecidableEq

/-- src/index.ts lines 147-183: bypass-path check, role resolution, then
admin bypass / hotel_owner 500 / user 300 / anonymous-fallthrough 100. -/
def roleBasedRateLimiter (verify : Verifier) (now : Nat) (req : Req)
    (s : RLState) : Outcome × RLState :=
  if isBypassPath req.path then (Outcome.next, s)
  else
    let userRole := getUserRoleFromToken verify (extractToken req.authHeader req.sessionCookie)
    if userRole = "admin" then (Outcome.next, s)
    else if userRole = "hotel_owner" then
      let r := hotelOwnerLimiter now s.hotelOwner
      (r.1, RLState.mk r.2 s.user s.anon)
    else if userRole = "user" then
      let r := userLimiter now s.user
      (r.1, RLState.mk s.hotelOwner r.2 s.anon)
    else
      let r := anonLimiter now s.anon
      (r.1, RLState.mk s.hotelOwner s.user r.2)

/-- Express strips the mount prefix of `app.use("/api/", mw)` from `req.url`
before `mw` runs, so inside the middleware `req.path` is mount-relative:
a request to `/api/health` is seen as `/health`. -/
def apiMountedPath (fullPath : String) : String :=
  if fullPath = "/api" then "/" else strDropChars fullPath 4

/-- Mounting `app.use("/api/", roleBasedRateLimiter)` (src/index.ts line 186): the
middleware runs for requests at or under the mount and sees the
mount-relative path. -/
def apiGate (verify : Verifier) (now : Nat) (fullPath : String)
    (authHeader sessionCookie : Option String) (s : RLState) : Outcome × RLState :=
  if fullPath = "/api" || strStartsWith ("/api/") fullPath then
    roleBasedRateLimiter verify now
      (Req.mk (apiMountedPath fullPath) authHeader sessionCookie) s
  else (Outcome.next, s)

/-- src/index.ts lines 189-204: `max: 50`, and `skip` returns true exactly
when the credential resolves to admin. The middleware never reads the path. -/
def paymentLimiter (verify : Verifier) (now : Nat)
    (authHeader sessionCookie : Option String) (s : LimiterState) :
    Outcome × LimiterState :=
  if getUserRoleFromToken verify (extractToken authHeader sessionCookie) = "admin" then
    (Outcome.next, s)
  else rateLimitStep WINDOW_MS 50 paymentMessage now s

/-- Requests matched by the mount pattern of src/index.ts line 206,
`app.use("/api/hotels/*/bookings/payment-intent", paymentLimiter)`. -/
def isPaymentOrderPath (p : String) : Bool :=
  strStartsWith ("/api/hotels/") p && strEndsWith ("/bookings/payment-intent") p

/-- Counters of the whole admission chain: the role-based limiters plus the
payment limiter. -/
structure AppState where
  rl : RLState
  payment : LimiterState
deriving DecidableEq

/-- The stacked chain a payment-order request traverses: first the role-based
gate mounted at `/api/`, then (if forwarded) the payment limiter mounted at
the payment path. -/
def paymentPipeline (verify : Verifier) (now : Nat) (fullPath : String)
    (authHeader sessionCookie : Option String) (s : AppState) : Outcome × AppState :=
  let r1 := apiGate verify now fullPath authHeader sessionCookie s.rl
  if r1.1 = Outcome.next then
    if isPaymentOrderPath fullPath then
      let r2 := paymentLimiter verify now authHeader sessionCookie s.payment
      (r2.1, AppState.mk r1.2 r2.2)
    else (Outcome.next, AppState.mk r1.2 s.payment)
  else (r1.1, AppState.mk r1.2 s.payment)

/-! ### Iterated request sequences -/

/-- State after `k` identical requests through the role-based limiter. -/
def runRole (verify : Verifier) (now : Nat) (req : Req) : Nat → RLState → RLState
  | 0, s => s
  | k+1, s => (roleBasedRateLimiter verify now req (runRole verify now req k s)).2

/-- Outcome of request number `k+1` in a run of identical requests. -/
def roleOutcomeAt (verify : Verifier) (now : Nat) (req : Req) (k : Nat)
    (s : RLState) : Outcome :=
  (roleBasedRateLimiter verify now req (runRole verify now req k s)).1

/-- A window counter freshly opened at time `t`. -/
def freshL (t : Nat) : LimiterState := LimiterState.mk t 0

def freshRL (t : Nat) : RLState := RLState.mk (freshL t) (freshL t) (freshL t)

def freshApp (t : Nat) : AppState := AppState.mk (freshRL t) (freshL t)

/-- State after `k` identical requests through the stacked payment chain. -/
def runPayment (verify : Verifier) (now : Nat) (fullPath : String)
    (a c : Option String) : Nat → AppState → AppState
  | 0, s => s
  | k+1, s =>
    (paymentPipeline verify now fullPath a c (runPayment verify now fullPath a c k s)).2

/-- Outcome of payment request number `k+1` in a run of identical requests. -/
def paymentOutcomeAt (verify : Verifier) (now : Nat) (fullPath : String)
    (a c : Option String) (k : Nat) (s : AppState) : Outcome :=
  (paymentPipeline verify now fullPath a c (runPayment verify now fullPath a c k s)).1

/-! ### The activity recorder (src/middleware/activityLogger.ts) -/

def MAX_ACTIVITIES : Nat := 10000

/-- The Activity record of src/middleware/activityLogger.ts lines 10-23. -/
structure Activity where
  userId : Option String
  timestamp : Nat
  method : String
  path : String
  ip : String
  userAgent : String
  statusCode : Option Nat
  params : Option (List (String × String))
  query : Option (List (String × String))
  duration : Nat
  message : Option String
deriving DecidableEq

/-- The shared append pattern of both recording paths: `activities.push(a)`
then `if (activities.length > MAX_ACTIVITIES) activities.shift()`. -/
def pushCapped (acts : List Activity) (a : Activity) : List Activity :=
  let acts1 := acts ++ [a]
  if MAX_ACTIVITIES < acts1.length then acts1.tail else acts1

/-- src/middleware/activityLogger.ts lines 110-127. -/
def isImportantOperation (method path : String) : Bool :=
  if method = "POST" || method = "PUT" || method = "PATCH" || method = "DELETE" then true
  else if strIncludes path ("/api/admin") then true
  else if strIncludes path ("/api/auth") then true
  else false

/-- The request/response data the automatic recording hook reads at
response-flush time. -/
structure AutoReq where
  userId : Option String
  method : String
  path : String
  ip : Option String
  remoteAddress : Option String
  userAgent : Option String
  params : List (String × String)
  query : List (String × String)
  bodyReason : Option String
  bodyMessage : Option String
deriving DecidableEq

/-- The record built in the `res.send` override
(src/middleware/activityLogger.ts lines 42-55). -/
def mkAutoActivity (r : AutoReq) (now statusCode duration : Nat) : Activity :=
  Activity.mk r.userId now r.method r.path
    (jsOrStr r.ip (jsOrStr r.remoteAddress ("unknown")))
    (jsOrStr r.userAgent ("unknown"))
    (some statusCode)
    (if r.params.isEmpty then none else some r.params)
    (if r.query.isEmpty then none else some r.query)
    duration
    (if jsTruthyStr r.bodyReason then r.bodyReason
     else if jsTruthyStr r.bodyMessage then r.bodyMessage else none)

/-- The effect of one response flush on the stored sequence
(src/middleware/activityLogger.ts lines 56-66): record only important
operations, with the capped FIFO append. -/
def activityLogger (r : AutoReq) (now statusCode duration : Nat)
    (acts : List Activity) : List Activity :=
  if isImportantOperation r.method r.path then
    pushCapped acts (mkAutoActivity r now statusCode duration)
  else acts

/-- The partial entry accepted by `logActivity`
(src/middleware/activityLogger.ts line 162). -/
structure PartialActivity where
  userId : Option String := none
  timestamp : Option Nat := none
  method : Option String := none
  path : Option String := none
  ip : Option String := none
  userAgent : Option String := none
  statusCode : Option Nat := none
  params : Option (List (String × String)) := none
  query : Option (List (String × String)) := none
  duration : Option Nat := none
  message : Option String := none
deriving DecidableEq

/-- The record built by `logActivity`
(src/middleware/activityLogger.ts lines 163-175). -/
def mkExplicitActivity (now : Nat) (e : PartialActivity) : Activity :=
  Activity.mk e.userId (e.timestamp.getD now)
    (jsOrStr e.method ("SYSTEM"))
    (jsOrStr e.path ("/internal"))
    (jsOrStr e.ip ("127.0.0.1"))
    (jsOrStr e.userAgent ("system"))
    e.statusCode e.params e.query (e.duration.getD 0) e.message

/-- src/middleware/activityLogger.ts lines 162-181: always appended, with the
capped FIFO append, no importance filtering. -/
def logActivity (now : Nat) (e : PartialActivity) (acts : List Activity) :
    List Activity :=
  pushCapped acts (mkExplicitActivity now e)

/-- The entry with no fields set, as in `logActivity({})`. -/
def emptyEntry : PartialActivity := {}

/-- The sequence obtained by appending each record of `es` in order,
starting from the empty sequence. -/
def appendAll (es : List Activity) : List Activity :=
  es.foldl pushCapped []

/-! ### Queries (src/middleware/activityLogger.ts lines 77-105, 132-155) -/

/-- The two sequential truthiness-guarded filters of `getActivityLogs`
(lines 82-89). -/
def applyFilters (userId method : Option String) (acts : List Activity) :
    List Activity :=
  let f1 := if jsTruthyStr userId then acts.filter (fun a => a.userId == userId) else acts
  if jsTruthyStr method then f1.filter (fun a => some a.method == method) else f1

/-- JS `arr.slice(-n)`: the last `n` elements, except that `slice(-0)` is
`slice(0)`, the whole array. -/
def jsSliceNeg {α : Type} (l : List α) (n : Nat) : List α :=
  if n = 0 then l else l.drop (l.length - n)

/-- src/middleware/activityLogger.ts lines 77-92:
`filtered.slice(-limit).reverse()`. -/
def getActivityLogs (userId method : Option String) (limit : Nat)
    (acts : List Activity) : List Activity :=
  (jsSliceNeg (applyFilters userId method acts) limit).reverse

/-- src/routes/activity-logs.ts line 115:
`Math.min(Number(req.query.limit) || 100, 1000)`; `none` models a missing or
non-numeric (NaN) query value, both falsy like a parsed 0. -/
def routeLimit (q : Option Int) : Int :=
  min (match q with
       | none => (100 : Int)
       | some n => if n = 0 then 100 else n) 1000

/-- Combined predicate equivalent to the sequential filters: a record passes
the actor filter and the verb filter whenever each is supplied (truthy). -/
def matchesFilter (userId method : Option String) (a : Activity) : Bool :=
  (!(jsTruthyStr userId) || a.userId == userId) &&
  (!(jsTruthyStr method) || some a.method == method)

/-! ### Concrete sample data used by witnesses -/

/-- A verifier accepting every token with the given payload role. -/
def verifyAs (role : Option String) : Verifier :=
  fun _ => TokenVerifyResult.success role

/-- A verifier rejecting every token. -/
def verifyNone : Verifier := fun _ => TokenVerifyResult.failure

def reqUser : Req := Req.mk ("/hotels") (some ("Bearer tok")) none

def reqNoCred : Req := Req.mk ("/hotels") none none

def sampleAct (u m : String) (ts : Nat) : Activity :=
  Activity.mk (some u) ts m ("/api/admin/x") ("1.2.3.4") ("agent") (some 200)
    none none 5 none

def sampleActs : List Activity :=
  [sampleAct ("u1") ("DELETE") 1, sampleAct ("u2") ("POST") 2,
   sampleAct ("u1") ("DELETE") 3]

/-- The representative payment-order-creation path used in the payment-limiter
theorems (matched by the mount pattern of src/index.ts line 206). -/
def paymentPath : String := "/api/hotels/123/bookings/payment-intent"

/-- An automatic GET request outside the admin and auth namespaces. -/
def autoGetReq : AutoReq :=
  AutoReq.mk none ("GET") ("/hotels") (some ("1.2.3.4")) none (some ("agent"))
    [] [] none none

/-! ### Window-counter lemmas -/

/-- Within the window (same instant as `windowStart`) a step increments the
counter and forwards iff the new count is within the ceiling. -/
theorem rateLimitStep_in_window (w mx : Nat) (msg : String) (t c : Nat) (hw : 0 < w) :
    rateLimitStep w mx msg t (LimiterState.mk t c) =
      (if c + 1 ≤ mx then Outcome.next else Outcome.reject 429 msg,
       LimiterState.mk t (c + 1)) := by
  simp only [rateLimitStep, Nat.sub_self, Nat.not_le.mpr hw, if_false]
  split <;> simp_all

/-- Once the window duration has elapsed the counter resets and the request
is forwarded (for any positive ceiling). -/
theorem rateLimitStep_reset (w mx : Nat) (msg : String) (t c : Nat) (hmx : 1 ≤ mx) :
    rateLimitStep w mx msg (t + w) (LimiterState.mk t c) =
      (Outcome.next, LimiterState.mk (t + w) 1) := by
  simp [rateLimitStep, Nat.add_sub_cancel_left, hmx]

/-! ### One-step behaviour of the role-based limiter per resolved role -/

theorem roleBased_step_user (verify : Verifier) (now : Nat) (req : Req) (s : RLState)
    (hb : isBypassPath req.path = false)
    (hr : getUserRoleFromToken verify (extractToken req.authHeader req.sessionCookie) = "user") :
    roleBasedRateLimiter verify now req s =
      ((userLimiter now s.user).1,
       RLState.mk s.hotelOwner (userLimiter now s.user).2 s.anon) := by
  simp [roleBasedRateLimiter, hb, hr]

theorem roleBased_step_hotelOwner (verify : Verifier) (now : Nat) (req : Req) (s : RLState)
    (hb : isBypassPath req.path = false)
    (hr : getUserRoleFromToken verify (extractToken req.authHeader req.sessionCookie) = "hotel_owner") :
    roleBasedRateLimiter verify now req s =
      ((hotelOwnerLimiter now s.hotelOwner).1,
       RLState.mk (hotelOwnerLimiter now s.hotelOwner).2 s.user s.anon) := by
  simp [roleBasedRateLimiter, hb, hr]

theorem roleBased_step_anon (verify : Verifier) (now : Nat) (req : Req) (s : RLState)
    (hb : isBypassPath req.path = false)
    (hr : getUserRoleFromToken verify (extractToken req.authHeader req.sessionCookie) = "anonymous") :
    roleBasedRateLimiter verify now req s =
      ((anonLimiter now s.anon).1,
       RLState.mk s.hotelOwner s.user (anonLimiter now s.anon).2) := by
  simp [roleBasedRateLimiter, hb, hr]

/-! ### Iterated runs of identical requests -/

theorem runRole_user (verify : Verifier) (t : Nat) (req : Req)
    (hb : isBypassPath req.path = false)
    (hr : getUserRoleFromToken verify (extractToken req.authHeader req.sessionCookie) = "user")
    (ho an : LimiterState) (c : Nat) (k : Nat) :
    runRole verify t req k (RLState.mk ho (LimiterState.mk t c) an) =
      RLState.mk ho (LimiterState.mk t (c + k)) an := by
  induction k with
  | zero => rfl
  | succ k ih =>
    rw [runRole, ih, roleBased_step_user verify t req _ hb hr]
    simp only [userLimiter, rateLimitStep_in_window _ _ _ _ _ (by decide : (0:Nat) < WINDOW_MS)]
    rfl

theorem runRole_hotelOwner (verify : Verifier) (t : Nat) (req : Req)
    (hb : isBypassPath req.path = false)
    (hr : getUserRoleFromToken verify (extractToken req.authHeader req.sessionCookie) = "hotel_owner")
    (u an : LimiterState) (c : Nat) (k : Nat) :
    runRole verify t req k (RLState.mk (LimiterState.mk t c) u an) =
      RLState.mk (LimiterState.mk t (c + k)) u an := by
  induction k with
  | zero => rfl
  | succ k ih =>
    rw [runRole, ih, roleBased_step_hotelOwner verify t req _ hb hr]
    simp only [hotelOwnerLimiter, rateLimitStep_in_window _ _ _ _ _ (by decide : (0:Nat) < WINDOW_MS)]
    rfl

theorem runRole_anon (verify : Verifier) (t : Nat) (req : Req)
    (hb : isBypassPath req.path = false)
    (hr : getUserRoleFromToken verify (extractToken req.authHeader req.sessionCookie) = "anonymous")
    (ho u : LimiterState) (c : Nat) (k : Nat) :
    runRole verify t req k (RLState.mk ho u (LimiterState.mk t c)) =
      RLState.mk ho u (LimiterState.mk t (c + k)) := by
  induction k with
  | zero => rfl
  | succ k ih =>
    rw [runRole, ih, roleBased_step_anon verify t req _ hb hr]
    simp only [anonLimiter, rateLimitStep_in_window _ _ _ _ _ (by decide : (0:Nat) < WINDOW_MS)]
    rfl

/-- C1: within one 15-minute window, for a caller resolved to role user the
first 300 requests are forwarded and every later one (in particular the
301st) is rejected with 429 and the user-specific message; once the window
elapses the counter resets and the next request is forwarded. Analogously
hotel_owner callers get 500 and anonymous callers 100 per window, each with
its role-specific message. Request number `k+1` of a run of identical
requests at time `t` from a fresh window is considered, and the reset clause
starts from an arbitrary in-window count `c` at time `t + WINDOW_MS`. -/
theorem C1_role_window_ceilings (verify : Verifier) (t k c : Nat) (req : Req)
    (ho u an : LimiterState) (hb : isBypassPath req.path = false) :
    (getUserRoleFromToken verify (extractToken req.authHeader req.sessionCookie) = "user" →
      roleOutcomeAt verify t req k (freshRL t) =
        (if k + 1 ≤ 300 then Outcome.next else Outcome.reject 429 userMessage) ∧
      roleBasedRateLimiter verify (t + WINDOW_MS) req
          (RLState.mk ho (LimiterState.mk t c) an) =
        (Outcome.next, RLState.mk ho (LimiterState.mk (t + WINDOW_MS) 1) an)) ∧
    (getUserRoleFromToken verify (extractToken req.authHeader req.sessionCookie) = "hotel_owner" →
      roleOutcomeAt verify t req k (freshRL t) =
        (if k + 1 ≤ 500 then Outcome.next else Outcome.reject 429 hotelOwnerMessage) ∧
      roleBasedRateLimiter verify (t + WINDOW_MS) req
          (RLState.mk (LimiterState.mk t c) u an) =
        (Outcome.next, RLState.mk (LimiterState.mk (t + WINDOW_MS) 1) u an)) ∧
    (getUserRoleFromToken verify (extractToken req.authHeader req.sessionCookie) = "anonymous" →
      roleOutcomeAt verify t req k (freshRL t) =
        (if k + 1 ≤ 100 then Outcome.next else Outcome.reject 429 anonMessage) ∧
      roleBasedRateLimiter verify (t + WINDOW_MS) req
          (RLState.mk ho u (LimiterState.mk t c)) =
        (Outcome.next, RLState.mk ho u (LimiterState.mk (t + WINDOW_MS) 1))) := by
  refine ⟨fun hr => ⟨?_, ?_⟩, fun hr => ⟨?_, ?_⟩, fun hr => ⟨?_, ?_⟩⟩
  · rw [roleOutcomeAt, freshRL, freshL, runRole_user verify t req hb hr _ _ 0 k,
      roleBased_step_user verify t req _ hb hr]
    simp [userLimiter, rateLimitStep_in_window _ _ _ _ _ (by decide : (0:Nat) < WINDOW_MS)]
  · rw [roleBased_step_user verify _ req _ hb hr]
    simp [userLimiter, rateLimitStep_reset _ _ _ _ _ (by decide : (1:Nat) ≤ 300)]
  · rw [roleOutcomeAt, freshRL, freshL, runRole_hotelOwner verify t req hb hr _ _ 0 k,
      roleBased_step_hotelOwner verify t req _ hb hr]
    simp [hotelOwnerLimiter, rateLimitStep_in_window _ _ _ _ _ (by decide : (0:Nat) < WINDOW_MS)]
  · rw [roleBased_step_hotelOwner verify _ req _ hb hr]
    simp [hotelOwnerLimiter, rateLimitStep_reset _ _ _ _ _ (by decide : (1:Nat) ≤ 500)]
  · rw [roleOutcomeAt, freshRL, freshL, runRole_anon verify t req hb hr _ _ 0 k,
      roleBased_step_anon verify t req _ hb hr]
    simp [anonLimiter, rateLimitStep_in_window _ _ _ _ _ (by decide : (0:Nat) < WINDOW_MS)]
  · rw [roleBased_step_anon verify _ req _ hb hr]
    simp [anonLimiter, rateLimitStep_reset _ _ _ _ _ (by decide : (1:Nat) ≤ 100)]

/-- Witness for C1 at a concrete caller: a valid token whose payload role is
user, the first request of a fresh window, and a reset from count 300. -/
theorem C1_witness :
    roleOutcomeAt (verifyAs (some ("user"))) 0 reqUser 0 (freshRL 0) =
      (if 0 + 1 ≤ 300 then Outcome.next else Outcome.reject 429 userMessage) ∧
    roleBasedRateLimiter (verifyAs (some ("user"))) (0 + WINDOW_MS) reqUser
        (RLState.mk (freshL 0) (LimiterState.mk 0 300) (freshL 0)) =
      (Outcome.next, RLState.mk (freshL 0) (LimiterState.mk (0 + WINDOW_MS) 1) (freshL 0)) :=
  (C1_role_window_ceilings (verifyAs (some ("user"))) 0 0 300 reqUser
    (freshL 0) (freshL 0) (freshL 0) (by decide)).1 (by decide)

/-- C2 (code bug): `roleBasedRateLimiter` is mounted at `/api/`, so Express
rewrites `req.url` and the middleware sees the mount-relative path:
`/api/health` arrives as `/health`. The exact-match bypass test compares
against the full paths and therefore never fires for any of the four listed
endpoints; a request to `/api/health` from an anonymous caller whose window
counter has reached the 100-request ceiling is rejected with 429 and the
anonymous message instead of passing through unconditionally. -/
theorem C2_bypass_check_never_fires :
    apiMountedPath ("/api/health") = "/health" ∧
    isBypassPath (apiMountedPath ("/api/health")) = false ∧
    isBypassPath (apiMountedPath ("/api/status")) = false ∧
    isBypassPath (apiMountedPath ("/api/auth/validate-token")) = false ∧
    isBypassPath (apiMountedPath ("/api/auth/google-callback")) = false ∧
    apiGate verifyNone 0 ("/api/health") none none
        (RLState.mk (freshL 0) (freshL 0) (LimiterState.mk 0 100)) =
      (Outcome.reject 429 anonMessage,
       RLState.mk (freshL 0) (freshL 0) (LimiterState.mk 0 101)) := by
  decide

/-- C5: a caller whose credential resolves to role admin is never rejected
by rate limiting: the role-based limiter forwards the request with all
counters untouched (whatever their values), and the payment limiter's skip
test does the same. -/
theorem C5_admin_never_rate_limited (verify : Verifier) (now : Nat) (req : Req)
    (s : RLState) (p : LimiterState)
    (h : getUserRoleFromToken verify (extractToken req.authHeader req.sessionCookie) = "admin") :
    roleBasedRateLimiter verify now req s = (Outcome.next, s) ∧
    paymentLimiter verify now req.authHeader req.sessionCookie p = (Outcome.next, p) := by
  constructor
  · simp [roleBasedRateLimiter, h]
  · simp [paymentLimiter, h]

/-- Witness for C5 at a concrete admin credential and arbitrary concrete
counters. -/
theorem C5_witness :
    roleBasedRateLimiter (verifyAs (some ("admin"))) 3 reqUser (freshRL 0) =
      (Outcome.next, freshRL 0) ∧
    paymentLimiter (verifyAs (some ("admin"))) 3 reqUser.authHeader
        reqUser.sessionCookie (freshL 0) =
      (Outcome.next, freshL 0) :=
  C5_admin_never_rate_limited (verifyAs (some ("admin"))) 3 reqUser (freshRL 0)
    (freshL 0) (by decide)

/-- C6: a credential that fails verification resolves to anonymous, exactly
like an absent credential, and the role-based limiter treats the request
identically to the same request stripped of both credential carriers; the
decoder is a total function (it never raises to the caller). -/
theorem C6_invalid_credential_is_anonymous (verify : Verifier) (tk : String)
    (now : Nat) (req : Req) (s : RLState)
    (hv : verify (cleanToken tk) = TokenVerifyResult.failure) :
    getUserRoleFromToken verify (some tk) = "anonymous" ∧
    getUserRoleFromToken verify (some tk) = getUserRoleFromToken verify none ∧
    (extractToken req.authHeader req.sessionCookie = some tk →
      roleBasedRateLimiter verify now req s =
        roleBasedRateLimiter verify now (Req.mk req.path none none) s) := by
  have h1 : getUserRoleFromToken verify (some tk) = "anonymous" := by
    by_cases htk : tk = ""
    · simp [getUserRoleFromToken, htk]
    · simp [getUserRoleFromToken, htk, hv]
  refine ⟨h1, h1.trans rfl, fun he => ?_⟩
  have hrole : getUserRoleFromToken verify (extractToken req.authHeader req.sessionCookie) = "anonymous" := by
    rw [he]; exact h1
  have hrole2 : getUserRoleFromToken verify
      (extractToken (none : Option String) (none : Option String)) = "anonymous" := rfl
  simp [roleBasedRateLimiter, hrole, hrole2]

/-- Witness for C6: a concrete token every verification attempt rejects,
carried in the authorization header. -/
theorem C6_witness :
    getUserRoleFromToken verifyNone (some ("bad")) = "anonymous" ∧
    getUserRoleFromToken verifyNone (some ("bad")) = getUserRoleFromToken verifyNone none ∧
    roleBasedRateLimiter verifyNone 0 (Req.mk ("/hotels") (some ("Bearer bad")) none) (freshRL 0) =
      roleBasedRateLimiter verifyNone 0 (Req.mk ("/hotels") none none) (freshRL 0) := by
  have T := C6_invalid_credential_is_anonymous verifyNone ("bad") 0
    (Req.mk ("/hotels") (some ("Bearer bad")) none) (freshRL 0) rfl
  exact ⟨T.1, T.2.1, T.2.2 (by decide)⟩

/-- C9 (implicit): a valid token whose payload has no role field resolves to
user via the falsy-role fallback, and such a caller is routed to the user
limiter, whose ceiling is 300 per window (not the anonymous 100). -/
theorem C9_missing_role_defaults_to_user (verify : Verifier) (tk : String)
    (now : Nat) (req : Req) (s : RLState)
    (h0 : ¬ tk = "")
    (hv : verify (cleanToken tk) = TokenVerifyResult.success none) :
    getUserRoleFromToken verify (some tk) = "user" ∧
    userLimiter now s.user = rateLimitStep WINDOW_MS 300 userMessage now s.user ∧
    (extractToken req.authHeader req.sessionCookie = some tk →
      isBypassPath req.path = false →
      roleBasedRateLimiter verify now req s =
        ((userLimiter now s.user).1,
         RLState.mk s.hotelOwner (userLimiter now s.user).2 s.anon)) := by
  have h1 : getUserRoleFromToken verify (some tk) = "user" := by
    simp [getUserRoleFromToken, h0, hv, jsOrStr]
  exact ⟨h1, rfl, fun he hb =>
    roleBased_step_user verify now req s hb (by rw [he]; exact h1)⟩

/-- Witness for C9: a concrete token that verifies with an empty payload. -/
theorem C9_witness :
    getUserRoleFromToken (verifyAs none) (some ("tok")) = "user" ∧
    roleBasedRateLimiter (verifyAs none) 0 reqUser (freshRL 0) =
      ((userLimiter 0 (freshRL 0).user).1,
       RLState.mk (freshRL 0).hotelOwner (userLimiter 0 (freshRL 0).user).2
         (freshRL 0).anon) := by
  have T := C9_missing_role_defaults_to_user (verifyAs none) ("tok") 0 reqUser
    (freshRL 0) (by decide) rfl
  exact ⟨T.1, T.2.2 (by decide) (by decide)⟩

/-! ### Capacity and eviction of the activity sequence -/

theorem appendAll_concat (es : List Activity) (a : Activity) :
    appendAll (es ++ [a]) = pushCapped (appendAll es) a := by
  simp [appendAll, List.foldl_append]

/-- Folding the capped append over any sequence of records keeps exactly the
`MAX_ACTIVITIES` most recent ones, in order: the suffix of the appended
sequence. -/
theorem appendAll_eq (es : List Activity) :
    appendAll es = es.drop (es.length - MAX_ACTIVITIES) := by
  have hM : MAX_ACTIVITIES = 10000 := rfl
  induction es using List.reverseRecOn with
  | nil => rfl
  | append_singleton l a ih =>
    rw [appendAll_concat, ih]
    simp only [pushCapped, List.length_append, List.length_drop, List.length_cons,
      List.length_nil]
    by_cases h : MAX_ACTIVITIES ≤ l.length
    · rw [if_pos (by omega)]
      have hne : l.drop (l.length - MAX_ACTIVITIES) ≠ [] := by
        intro hc
        have hlen := congrArg List.length hc
        simp only [List.length_drop, List.length_nil] at hlen
        omega
      rw [List.tail_append_of_ne_nil hne, List.tail_drop,
        List.drop_append_of_le_length
          (by omega : l.length + 1 - MAX_ACTIVITIES ≤ l.length)]
      have harith : l.length - MAX_ACTIVITIES + 1 = l.length + 1 - MAX_ACTIVITIES := by
        omega
      rw [harith]
    · rw [if_neg (by omega), Nat.sub_eq_zero_of_le (by omega : l.length ≤ MAX_ACTIVITIES),
        Nat.sub_eq_zero_of_le (by omega : l.length + 1 ≤ MAX_ACTIVITIES)]
      simp

/-- C3: the sequence never exceeds 10000 records after an append; once more
than 10000 records have been appended it holds exactly the 10000 most recent
ones, oldest evicted first (the appended sequence's suffix, in append order),
and each over-capacity append evicts exactly one record (the length formula
of a single capped append). -/
theorem C3_capacity_fifo (es acts : List Activity) (a : Activity) :
    appendAll es = es.drop (es.length - MAX_ACTIVITIES) ∧
    (appendAll es).length = min es.length MAX_ACTIVITIES ∧
    (pushCapped acts a).length =
      (if MAX_ACTIVITIES < acts.length + 1 then acts.length else acts.length + 1) := by
  refine ⟨appendAll_eq es, ?_, ?_⟩
  · rw [appendAll_eq es, List.length_drop]
    omega
  · simp only [pushCapped, apply_ite List.length, List.length_tail, List.length_append,
      List.length_cons, List.length_nil]
    split <;> omega

/-- Both recording paths append through the same capped push, and the pushed
record always ends up last (the push is never filtered away and eviction
only ever removes the oldest element). -/
theorem pushCapped_getLast (acts : List Activity) (a : Activity) :
    (pushCapped acts a).getLast? = some a := by
  simp only [pushCapped]
  by_cases h : MAX_ACTIVITIES < (acts ++ [a]).length
  · rw [if_pos h]
    cases acts with
    | nil => simp [MAX_ACTIVITIES] at h
    | cons x xs => simp [List.getLast?_concat]
  · rw [if_neg h]
    exact List.getLast?_concat _

/-- C4 counterexample: the record produced by `logActivity` with no fields
set leaves the actor (`userId`) unset; it does not default to the string
claimed. The synthetic name appears only in the console line and the
`userAgent` default. -/
theorem C4_counterexample :
    (mkExplicitActivity 0 emptyEntry).userId = none ∧
    ¬ (mkExplicitActivity 0 emptyEntry).userId = some ("system") := by
  decide

/-- C4 as amended: `logActivity` with no fields set produces a record whose
verb is SYSTEM, path `/internal`, duration zero, `userAgent` defaulting to
the synthetic system agent and ip to 127.0.0.1 - but whose actor (`userId`)
remains unset; every explicit entry is appended unconditionally (it becomes
the last element, with no importance filtering), unlike an automatic GET
record outside the admin/auth namespaces, which is discarded. -/
theorem C4_explicit_defaults (now sc d : Nat) (e : PartialActivity)
    (acts : List Activity) (r : AutoReq)
    (hm : r.method = "GET")
    (ha : strIncludes r.path ("/api/admin") = false)
    (hu : strIncludes r.path ("/api/auth") = false) :
    (mkExplicitActivity now emptyEntry).userId = none ∧
    (mkExplicitActivity now emptyEntry).method = "SYSTEM" ∧
    (mkExplicitActivity now emptyEntry).path = "/internal" ∧
    (mkExplicitActivity now emptyEntry).ip = "127.0.0.1" ∧
    (mkExplicitActivity now emptyEntry).userAgent = "system" ∧
    (mkExplicitActivity now emptyEntry).duration = 0 ∧
    (logActivity now e acts).getLast? = some (mkExplicitActivity now e) ∧
    activityLogger r now sc d acts = acts := by
  refine ⟨rfl, rfl, rfl, rfl, rfl, rfl, pushCapped_getLast acts _, ?_⟩
  simp [activityLogger, isImportantOperation, hm, ha, hu]

/-- Witness for C4 at the empty entry and a concrete automatic GET request
outside the admin/auth namespaces. -/
theorem C4_witness :
    (mkExplicitActivity 0 emptyEntry).userId = none ∧
    (mkExplicitActivity 0 emptyEntry).method = "SYSTEM" ∧
    (mkExplicitActivity 0 emptyEntry).path = "/internal" ∧
    (mkExplicitActivity 0 emptyEntry).ip = "127.0.0.1" ∧
    (mkExplicitActivity 0 emptyEntry).userAgent = "system" ∧
    (mkExplicitActivity 0 emptyEntry).duration = 0 ∧
    (logActivity 0 emptyEntry []).getLast? = some (mkExplicitActivity 0 emptyEntry) ∧
    activityLogger autoGetReq 0 200 1 [] = [] :=
  C4_explicit_defaults 0 200 1 emptyEntry [] autoGetReq (by decide) (by decide)
    (by decide)

/-! ### Query semantics -/

/-- The two sequential truthiness-guarded filters coincide with one filter by
the combined predicate. -/
theorem applyFilters_eq (u m : Option String) (acts : List Activity) :
    applyFilters u m acts = acts.filter (matchesFilter u m) := by
  by_cases hu : jsTruthyStr u <;> by_cases hm : jsTruthyStr m <;>
    simp [applyFilters, hu, hm, List.filter_filter]
  · exact List.filter_congr fun a _ => by simp [matchesFilter, hu, hm, Bool.and_comm]
  · exact List.filter_congr fun a _ => by simp [matchesFilter, hu, hm]
  · exact List.filter_congr fun a _ => by simp [matchesFilter, hu, hm]
  · symm
    rw [List.filter_eq_self]
    intro a _
    simp [matchesFilter, hu, hm]

/-- C7: for every positive limit, the query returns at most `limit` records,
they are exactly the most recent matching ones in most-recent-first order
(the reversed filtered sequence truncated to `limit`), and every returned
record satisfies the supplied actor and verb filters. -/
theorem C7_query_most_recent (acts : List Activity) (u m : Option String)
    (limit : Nat) (hpos : 0 < limit) :
    (getActivityLogs u m limit acts).length ≤ limit ∧
    getActivityLogs u m limit acts =
      (acts.filter (matchesFilter u m)).reverse.take limit ∧
    ∀ a ∈ getActivityLogs u m limit acts, matchesFilter u m a = true := by
  have he : getActivityLogs u m limit acts =
      (acts.filter (matchesFilter u m)).reverse.take limit := by
    rw [getActivityLogs, applyFilters_eq, jsSliceNeg,
      if_neg (Nat.pos_iff_ne_zero.mp hpos), List.take_reverse]
  refine ⟨?_, he, ?_⟩
  · rw [he]
    exact List.length_take_le _ _
  · intro a ha
    rw [he] at ha
    have h2 := List.mem_of_mem_take ha
    rw [List.mem_reverse] at h2
    exact (List.mem_filter.mp h2).2

/-- Witness for C7 on a concrete three-record store queried with both
filters supplied and limit 5. -/
theorem C7_witness :
    (getActivityLogs (some ("u1")) (some ("DELETE")) 5 sampleActs).length ≤ 5 ∧
    getActivityLogs (some ("u1")) (some ("DELETE")) 5 sampleActs =
      (sampleActs.filter (matchesFilter (some ("u1")) (some ("DELETE")))).reverse.take 5 ∧
    matchesFilter (some ("u1")) (some ("DELETE")) (sampleAct ("u1") ("DELETE") 3) = true := by
  have T := C7_query_most_recent sampleActs (some ("u1")) (some ("DELETE")) 5 (by decide)
  exact ⟨T.1, T.2.1, T.2.2 _ (by decide)⟩

/-- C10 (implicit): calling `getActivityLogs` with limit 0 returns every
matching record (reversed), because `slice(-0)` is `slice(0)`; and the HTTP
boundary's clamp never produces 0 (a falsy parsed limit becomes the default
100 before the 1000 cap), so the behaviour is reachable only by direct
calls. -/
theorem C10_limit_zero_returns_all (acts : List Activity) (u m : Option String)
    (q : Option Int) :
    getActivityLogs u m 0 acts = (applyFilters u m acts).reverse ∧
    routeLimit none = 100 ∧
    routeLimit (some 0) = 100 ∧
    routeLimit (some 2000) = 1000 ∧
    ¬ routeLimit q = 0 := by
  refine ⟨?_, by decide, by decide, by decide, ?_⟩
  · rw [getActivityLogs, jsSliceNeg]
    simp
  · cases q with
    | none => decide
    | some n =>
      by_cases hn : n = 0
      · subst hn
        decide
      · show ¬ min (if n = 0 then (100 : Int) else n) 1000 = 0
        rw [if_neg hn]
        intro hc
        rcases le_total n 1000 with h | h
        · rw [min_eq_left h] at hc
          exact hn hc
        · rw [min_eq_right h] at hc
          omega

/-! ### The stacked payment limiter -/

/-- For a non-admin (user-role) caller the payment limiter is one in-window
counter step at ceiling 50. -/
theorem paymentLimiter_user (verify : Verifier) (t : Nat) (a c : Option String)
    (hr : getUserRoleFromToken verify (extractToken a c) = "user") (pc : Nat) :
    paymentLimiter verify t a c (LimiterState.mk t pc) =
      ((if pc + 1 ≤ 50 then Outcome.next else Outcome.reject 429 paymentMessage),
       LimiterState.mk t (pc + 1)) := by
  rw [paymentLimiter, if_neg (by rw [hr]; decide)]
  exact rateLimitStep_in_window _ _ _ _ _ (by decide)

/-- One request of a user-role caller through the stacked chain at the
payment path, within the window: the role limiter counts first; only if it
forwards does the payment counter move. -/
theorem paymentPipeline_user_step (verify : Verifier) (t : Nat) (a c : Option String)
    (hr : getUserRoleFromToken verify (extractToken a c) = "user")
    (ho an : LimiterState) (uc pc : Nat) :
    paymentPipeline verify t paymentPath a c
        (AppState.mk (RLState.mk ho (LimiterState.mk t uc) an) (LimiterState.mk t pc)) =
      ((if uc + 1 ≤ 300 then
          (if pc + 1 ≤ 50 then Outcome.next else Outcome.reject 429 paymentMessage)
        else Outcome.reject 429 userMessage),
       AppState.mk (RLState.mk ho (LimiterState.mk t (uc + 1)) an)
         (LimiterState.mk t (if uc + 1 ≤ 300 then pc + 1 else pc))) := by
  have hmount : (paymentPath = "/api" || strStartsWith ("/api/") paymentPath) = true := by
    decide
  have hb : isBypassPath (apiMountedPath paymentPath) = false := by decide
  have hpay : isPaymentOrderPath paymentPath = true := by decide
  have hstep := roleBased_step_user verify t (Req.mk (apiMountedPath paymentPath) a c)
    (RLState.mk ho (LimiterState.mk t uc) an) hb hr
  by_cases h3 : uc + 1 ≤ 300
  · simp [paymentPipeline, apiGate, hmount, hpay, hstep, userLimiter,
      rateLimitStep_in_window _ _ _ _ _ (by decide : (0:Nat) < WINDOW_MS),
      paymentLimiter_user verify t a c hr pc, h3]
  · simp [paymentPipeline, apiGate, hmount, hpay, hstep, userLimiter,
      rateLimitStep_in_window _ _ _ _ _ (by decide : (0:Nat) < WINDOW_MS), h3]

/-- Invariant of a run of identical user-role payment requests at time `t`
from fresh windows: the role counter counts every request, the payment
counter only the ones the role limiter forwarded. -/
theorem runPayment_user (verify : Verifier) (t : Nat) (a c : Option String)
    (hr : getUserRoleFromToken verify (extractToken a c) = "user") (k : Nat) :
    runPayment verify t paymentPath a c k (freshApp t) =
      AppState.mk (RLState.mk (freshL t) (LimiterState.mk t k) (freshL t))
        (LimiterState.mk t (min k 300)) := by
  induction k with
  | zero => rfl
  | succ k ih =>
    rw [runPayment, ih, paymentPipeline_user_step verify t a c hr _ _ k (min k 300)]
    by_cases h3 : k + 1 ≤ 300
    · simp [h3]
      omega
    · simp [h3]
      omega

/-- C8: at a payment-order-creation path the 50-per-window payment ceiling is
stacked on top of the role-based ceiling. An admin-resolved caller bypasses
both limiters (state unchanged). For a user-role caller, request `k+1` of a
run from fresh windows is forwarded iff it is within both ceilings: up to 50
it passes, from 51 to 300 the payment limiter rejects it, past 300 the role
limiter rejects it first (so a payment request must pass both limiters); and
from a state whose user window is already exhausted, a payment request is
rejected by the role limiter with the payment counter untouched. -/
theorem C8_payment_ceiling (verify : Verifier) (t k : Nat) (a c : Option String)
    (s : AppState) (ho an : LimiterState) :
    (getUserRoleFromToken verify (extractToken a c) = "admin" →
      paymentPipeline verify t paymentPath a c s = (Outcome.next, s)) ∧
    (getUserRoleFromToken verify (extractToken a c) = "user" →
      paymentOutcomeAt verify t paymentPath a c k (freshApp t) =
        (if k + 1 ≤ 50 then Outcome.next
         else if k + 1 ≤ 300 then Outcome.reject 429 paymentMessage
         else Outcome.reject 429 userMessage)) ∧
    (getUserRoleFromToken verify (extractToken a c) = "user" →
      paymentPipeline verify t paymentPath a c
          (AppState.mk (RLState.mk ho (LimiterState.mk t 300) an)
            (LimiterState.mk t 0)) =
        (Outcome.reject 429 userMessage,
         AppState.mk (RLState.mk ho (LimiterState.mk t 301) an)
           (LimiterState.mk t 0))) := by
  refine ⟨fun h => ?_, fun hr => ?_, fun hr => ?_⟩
  · simp [paymentPipeline, apiGate,
      (by decide : (paymentPath = "/api" || strStartsWith ("/api/") paymentPath) = true),
      roleBasedRateLimiter, h, paymentLimiter]
  · rw [paymentOutcomeAt, runPayment_user verify t a c hr k,
      paymentPipeline_user_step verify t a c hr _ _ k (min k 300)]
    by_cases h50 : k + 1 ≤ 50
    · have h300 : k + 1 ≤ 300 := by omega
      have hmin : min k 300 + 1 ≤ 50 := by omega
      simp [h300, h50, hmin]
    · by_cases h300 : k + 1 ≤ 300
      · have hmin : ¬ min k 300 + 1 ≤ 50 := by omega
        simp [h300, h50, hmin]
      · simp [h300, h50]
  · rw [paymentPipeline_user_step verify t a c hr ho an 300 0]
    simp

/-- Witness for C8 with concrete admin and user credentials: the admin
request bypasses both limiters, the first user payment request is forwarded,
and a user payment request at an exhausted user window is rejected by the
role limiter with the payment counter untouched. -/
theorem C8_witness :
    paymentPipeline (verifyAs (some ("admin"))) 0 paymentPath (some ("Bearer t")) none
        (freshApp 0) = (Outcome.next, freshApp 0) ∧
    paymentOutcomeAt (verifyAs (some ("user"))) 0 paymentPath (some ("Bearer t")) none 0
        (freshApp 0) =
      (if 0 + 1 ≤ 50 then Outcome.next
       else if 0 + 1 ≤ 300 then Outcome.reject 429 paymentMessage
       else Outcome.reject 429 userMessage) ∧
    paymentPipeline (verifyAs (some ("user"))) 0 paymentPath (some ("Bearer t")) none
        (AppState.mk (RLState.mk (freshL 0) (LimiterState.mk 0 300) (freshL 0))
          (LimiterState.mk 0 0)) =
      (Outcome.reject 429 userMessage,
       AppState.mk (RLState.mk (freshL 0) (LimiterState.mk 0 301) (freshL 0))
         (LimiterState.mk 0 0)) :=
  ⟨(C8_payment_ceiling (verifyAs (some ("admin"))) 0 0 (some ("Bearer t")) none
      (freshApp 0) (freshL 0) (freshL 0)).1 (by decide),
   (C8_payment_ceiling (verifyAs (some ("user"))) 0 0 (some ("Bearer t")) none
      (freshApp 0) (freshL 0) (freshL 0)).2.1 (by decide),
   (C8_payment_ceiling (verifyAs (some ("user"))) 0 0 (some ("Bearer t")) none
      (freshApp 0) (freshL 0) (freshL 0)).2.2 (by decide)⟩

end HotelBackend
